import Mathlib

/-!
# Verification of `download_nuscenes.py`

A shallow embedding of the nuScenes batch downloader
(`src/download_nuscenes.py`) and proofs about its components:

* the Transfer Unit `download_file` (lines 9-63): resumable single-file
  download with a Range header, progress accounting and error handling;
* the Worker Pool Dispatcher `worker` / `download_files_in_parallel`
  (lines 65-111): a shared FIFO queue drained by a bounded pool of
  threads, collecting failed URLs;
* the Retry Orchestrator: the retry loop in `main` (lines 141-152).

Machine-level effects are made explicit: the local file at the derived
save path is a value of type `Option (List Nat)` (`none` = file absent,
bytes abstracted as naturals), the network is an oracle describing the
response to the single `requests.get` call, and filesystem faults
(`OSError` at `open` or `write`) are an explicit behaviour parameter.
Python exceptions are modelled by an explicit result type: the code's
`except requests.exceptions.RequestException` clause catches exactly
`PyExn.requestException`; any other exception escapes the function.
-/

namespace Nuscenes

/-- A Python exception that can arise inside `download_file`:
`requests.exceptions.RequestException` from the HTTP layer, or `OSError`
from the filesystem (`open`, `write`, permission denied, disk full). -/
inductive PyExn where
  | requestException
  | osError
deriving DecidableEq, Repr

/-- Outcome of a Python call: a normal boolean return, or an uncaught
exception propagating out of the call. -/
inductive PyResult where
  | ok (b : Bool)
  | exn (e : PyExn)
deriving DecidableEq, Repr

/-- The network oracle for the one `requests.get(url, headers, stream=True,
timeout=30)` call of a `download_file` invocation.

* `reqError`: the request itself fails (connection reset, timeout, DNS
  failure) or `raise_for_status()` raises on a non-2xx/3xx status — all of
  these are `requests.exceptions.RequestException`s.
* `ok clen chunks midStreamError`: the request succeeds with declared
  `content-length` header `clen`; `iter_content` then yields `chunks`
  (possibly-empty keep-alive chunks included) and, when `midStreamError`
  is true, raises a `RequestException` after the listed chunks. -/
inductive NetResult where
  | reqError
  | ok (contentLength : Nat) (chunks : List (List Nat)) (midStreamError : Bool)
deriving DecidableEq, Repr

/-- Filesystem behaviour during a `download_file` invocation.

* `ok`: every filesystem operation succeeds.
* `openError`: `open(save_path, 'ab')` (line 45) raises `OSError`
  (e.g. permission denied); the file is untouched.
* `writeError k`: the write of the `k`-th (0-based) non-empty chunk
  (line 55) raises `OSError` (e.g. disk full); earlier chunks are on
  disk.  If fewer than `k + 1` non-empty chunks arrive, no fault fires. -/
inductive FsBehavior where
  | ok
  | openError
  | writeError (k : Nat)
deriving DecidableEq, Repr

/-- The environment of one `download_file` call: the network's response
and the filesystem's behaviour. -/
structure Env where
  net : NetResult
  fsb : FsBehavior
deriving DecidableEq, Repr

/-- The observable outcome of one `download_file` call:

* `result`: return value or escaped exception;
* `file`: content of the file at the save path afterwards;
* `sentRange`: the `Range` header sent with the request, if any;
* `totalSize`: the `total_size` computed at line 42 (`none` when the
  request failed before the header was read). -/
structure DownloadOutcome where
  result : PyResult
  file : Option (List Nat)
  sentRange : Option String
  totalSize : Option Nat
deriving DecidableEq, Repr

/-- Line 22: `filename = url.split('/')[-1]`. -/
def filename (url : String) : String :=
  (url.splitOn "/").getLastD ""

/-- Lines 26-28: the resume offset is the size of the file already at the
save path, `0` when no such file exists. -/
def resumeBytePos (file : Option (List Nat)) : Nat :=
  match file with
  | none => 0
  | some c => c.length

/-- Lines 32-34: a `Range: bytes=<pos>-` header is added exactly when the
resume offset is strictly positive. -/
def rangeHeader (pos : Nat) : Option String :=
  if 0 < pos then some ("bytes=" ++ toString pos ++ "-") else none

/-- Line 54: `if chunk:` filters out empty keep-alive chunks; only
non-empty chunks are written and advance the progress bar. -/
def nonEmptyChunks (chunks : List (List Nat)) : List (List Nat) :=
  chunks.filter (fun c => !c.isEmpty)

/-- The Transfer Unit, `download_file(url, save_dir)` (lines 9-63), as a
function of the pre-existing file at the save path and the environment.

Control flow of the source: compute the resume offset and optional Range
header; inside `try`, issue the request (`reqError` is caught by the
`except requests.exceptions.RequestException` clause at line 61 and
returns `False`); read `content-length` and set
`total_size = content_length + resume_byte_pos`; open the file in append
mode (`OSError` here is *not* a `RequestException`, so it escapes); write
each non-empty chunk in order (`OSError` at a write also escapes); a
mid-stream `RequestException` from `iter_content` is caught and returns
`False`, with all chunks written so far kept on disk; otherwise return
`True`. -/
def download_file (url : String) (file : Option (List Nat)) (env : Env) :
    DownloadOutcome :=
  let pos := resumeBytePos file
  let hdr := rangeHeader pos
  let orig := file.getD []
  match env.net with
  | NetResult.reqError =>
      { result := PyResult.ok false, file := file, sentRange := hdr,
        totalSize := none }
  | NetResult.ok clen chunks mid =>
      let total := clen + pos
      match env.fsb with
      | FsBehavior.openError =>
          { result := PyResult.exn PyExn.osError, file := file,
            sentRange := hdr, totalSize := some total }
      | FsBehavior.ok =>
          { result := PyResult.ok (!mid),
            file := some (orig ++ (nonEmptyChunks chunks).flatten),
            sentRange := hdr, totalSize := some total }
      | FsBehavior.writeError k =>
          let ne := nonEmptyChunks chunks
          if k < ne.length then
            { result := PyResult.exn PyExn.osError,
              file := some (orig ++ (ne.take k).flatten),
              sentRange := hdr, totalSize := some total }
          else
            { result := PyResult.ok (!mid),
              file := some (orig ++ ne.flatten),
              sentRange := hdr, totalSize := some total }

example :
    (download_file "u" none ⟨NetResult.ok 3 [[1, 2], [], [3]] false,
      FsBehavior.ok⟩) =
    { result := PyResult.ok true, file := some [1, 2, 3],
      sentRange := none, totalSize := some 3 } := by decide

example :
    (download_file "u" (some [9]) ⟨NetResult.ok 2 [[7, 8]] false,
      FsBehavior.ok⟩) =
    { result := PyResult.ok true, file := some [9, 7, 8],
      sentRange := some "bytes=1-", totalSize := some 3 } := by decide

/-!
## Worker Pool Dispatcher

`download_files_in_parallel(urls, save_dir, max_threads)` (lines 76-111)
loads all URLs into a FIFO `Queue`, starts
`min(max_threads, len(urls))` threads running `worker`, waits on
`queue.join()`, and drains `failed_queue` into the returned list.

Each `worker` (lines 65-74) repeatedly pops one URL from the shared
queue (`queue.get()` is atomic, so each URL is claimed by exactly one
thread, in FIFO order), runs `download_file` on it, and puts the URL on
`failed_queue` when the transfer reports failure.

We model a dispatch round operationally: a state holds the remaining
queue, the URLs claimed but not yet finished (in-flight), the URLs whose
transfer has finished (the invocation record), and the failure list in
completion order.  A `workerStep` is either an atomic claim (bounded by
the thread count `C`) or the completion of any in-flight transfer; which
in-flight transfer finishes first is the scheduler's choice, so the
failure list's *order* is nondeterministic while its multiset is not.
The per-URL verdict of `download_file` in the round is abstracted by the
oracle `fails : String → Bool` (`true` = the transfer reports failure).
-/

/-- State of one dispatch round: the pending FIFO queue, the in-flight
claims, the completed transfers, and the failed-URL list so far. -/
structure WState where
  queue : List String
  inflight : List String
  done : List String
  failed : List String
deriving DecidableEq, Repr

/-- One scheduler step of a dispatch round with thread count `C` and
per-URL failure oracle `fails`.

* `claim`: a thread atomically pops the head of the queue
  (`queue.get()`); at most `C` transfers are in flight at once.
* `complete`: any in-flight transfer finishes; its URL is recorded as
  done and appended to the failure list when `download_file` reported
  failure (lines 70-72). -/
inductive workerStep (C : Nat) (fails : String → Bool) :
    WState → WState → Prop where
  | claim (u : String) (rest infl dn fl : List String)
      (hC : infl.length < C) :
      workerStep C fails ⟨u :: rest, infl, dn, fl⟩ ⟨rest, u :: infl, dn, fl⟩
  | complete (u : String) (q infl₁ infl₂ dn fl : List String) :
      workerStep C fails ⟨q, infl₁ ++ u :: infl₂, dn, fl⟩
        ⟨q, infl₁ ++ infl₂, u :: dn,
          fl ++ (if fails u then [u] else [])⟩

/-- A full dispatch round: any finite interleaving of worker steps. -/
def dispatchExec (C : Nat) (fails : String → Bool) :
    WState → WState → Prop :=
  Relation.ReflTransGen (workerStep C fails)

/-- The dispatch-round invariant: no URL is created or lost (the queue,
the in-flight set and the done record jointly permute the original task
list), and the failure list is, up to order, exactly the completed
transfers that reported failure. -/
def dispatchInv (fails : String → Bool) (tasks : List String)
    (s : WState) : Prop :=
  (s.queue ++ s.inflight ++ s.done).Perm tasks ∧
    s.failed.Perm (s.done.filter fails)

/-!
## Deterministic dispatch summary and the retry loop

For the Retry Orchestrator only the thread count and the failure
*multiset* of a round matter; `dispatchExec_final_perm` shows the
multiset is schedule-independent and equals the failing tasks.  The
summary below fixes the queue (FIFO) order as the representative order
of the failure list.
-/

/-- Summary of one `download_files_in_parallel(urls, save_dir,
max_threads)` call (lines 76-111): the number of worker threads started
(line 95: `thread_count = min(max_threads, len(urls))`) and the returned
failed-URL list, in queue order (by `dispatchExec_final_perm`, every
schedule returns a permutation of this list). -/
structure DispatchResult where
  threadCount : Nat
  failed : List String
deriving DecidableEq, Repr

/-- Deterministic summary of `download_files_in_parallel` for the
failure oracle `fails`. -/
def download_files_in_parallel (fails : String → Bool)
    (urls : List String) (max_threads : Nat) : DispatchResult :=
  { threadCount := min max_threads urls.length
  , failed := urls.filter fails }

/-- Observable events of `main`'s retry loop (lines 141-152): a dispatch
round over a task list, or a `time.sleep(seconds)` call (line 152). -/
inductive Ev where
  | dispatch (round : Nat) (tasks : List String)
  | sleep (seconds : Nat)
deriving DecidableEq, Repr

/-- Is this event a dispatch round? -/
def isDispatch : Ev → Bool
  | Ev.dispatch _ _ => true
  | Ev.sleep _ => false

/-- Number of dispatch rounds in a trace. -/
def dispatchCount (t : List Ev) : Nat :=
  t.countP isDispatch

/-- The retry loop of `main` (lines 145-152):
`for i in range(retry_count): if not failed_urls: break;
failed_urls = download_files_in_parallel(failed_urls, ...); time.sleep(2)`.

`failsAt r u` tells whether URL `u` fails in dispatch round `r`
(round 0 is the initial dispatch at line 142, rounds 1.. are retries).
Arguments: remaining loop iterations, the round number of the next
retry, and the current failed list.  Returns the event trace and the
final failed list. -/
def retryAux (failsAt : Nat → String → Bool) (max_threads : Nat) :
    Nat → Nat → List String → List Ev × List String
  | 0, _, failed => ([], failed)
  | n + 1, i, failed =>
    if failed.isEmpty then ([], failed)
    else
      let r := retryAux failsAt max_threads n (i + 1)
        (download_files_in_parallel (failsAt i) failed max_threads).failed
      (Ev.dispatch i failed :: Ev.sleep 2 :: r.1, r.2)

/-- `main`'s download phase (lines 141-152): the initial dispatch over
the full URL list followed by the retry loop with `retry_count = 3`.
Returns the event trace and the list of URLs still failing. -/
def mainRun (failsAt : Nat → String → Bool) (urls : List String)
    (max_threads : Nat) : List Ev × List String :=
  let r := retryAux failsAt max_threads 3 1
    (download_files_in_parallel (failsAt 0) urls max_threads).failed
  (Ev.dispatch 0 urls :: r.1, r.2)

example :
    mainRun (fun r u => decide (u = "c" ∨ (u = "b" ∧ r = 0))) ["a", "b", "c"] 3 =
    ([Ev.dispatch 0 ["a", "b", "c"], Ev.dispatch 1 ["b", "c"], Ev.sleep 2,
      Ev.dispatch 2 ["c"], Ev.sleep 2, Ev.dispatch 3 ["c"], Ev.sleep 2],
     ["c"]) := by decide

lemma workerStep_inv {C : Nat} {fails : String → Bool}
    {tasks : List String} {s s' : WState}
    (hstep : workerStep C fails s s') (hinv : dispatchInv fails tasks s) :
    dispatchInv fails tasks s' := by
  obtain ⟨hperm, hfail⟩ := hinv
  cases hstep with
  | claim u rest infl dn fl hC =>
      refine ⟨?_, hfail⟩
      refine List.Perm.trans ?_ hperm
      simp only [List.perm_iff_count, List.count_append, List.count_cons]
      intro a
      omega
  | complete u q infl₁ infl₂ dn fl =>
      constructor
      · refine List.Perm.trans ?_ hperm
        simp only [List.perm_iff_count, List.count_append, List.count_cons]
        intro a
        omega
      · have hcnt := List.perm_iff_count.mp hfail
        simp only [List.perm_iff_count, List.count_append,
          List.count_filter, List.count_cons]
        intro a
        by_cases hfa : fails u
        · simp only [hfa, if_true]
          have := hcnt a
          simp only [List.count_filter] at this
          by_cases hau : a = u
          · subst hau
            simp [this, hfa]
          · simp [List.filter_cons, hfa, List.count_cons, hau, this]
        · simp only [hfa, if_false]
          have := hcnt a
          simp only [List.count_filter] at this
          by_cases hau : a = u
          · subst hau
            simp [this, hfa]
          · simp [List.filter_cons, hfa, List.count_cons, hau, this]

lemma dispatchExec_inv {C : Nat} {fails : String → Bool}
    {tasks : List String} {s s' : WState}
    (hexec : dispatchExec C fails s s')
    (hinv : dispatchInv fails tasks s) : dispatchInv fails tasks s' := by
  induction hexec with
  | refl => exact hinv
  | tail _ hstep ih => exact workerStep_inv hstep ih

/-- Any complete dispatch round (queue drained, no transfer in flight)
invokes `download_file` once per task occurrence and collects, up to
order, exactly the failing tasks. -/
lemma dispatchExec_final_perm {C : Nat} {fails : String → Bool}
    {tasks dn fl : List String}
    (hexec : dispatchExec C fails ⟨tasks, [], [], []⟩ ⟨[], [], dn, fl⟩) :
    dn.Perm tasks ∧ fl.Perm (tasks.filter fails) := by
  have hinit : dispatchInv fails tasks ⟨tasks, [], [], []⟩ := by
    constructor
    · simp
    · simp
  have hfin := dispatchExec_inv hexec hinit
  obtain ⟨hperm, hfail⟩ := hfin
  simp only [List.nil_append] at hperm
  exact ⟨hperm, hfail.trans (hperm.filter fails)⟩

lemma retryAux_nil (failsAt : Nat → String → Bool) (mt n i : Nat) :
    retryAux failsAt mt n i [] = ([], []) := by
  cases n <;> rfl

lemma retryAux_dispatchCount (failsAt : Nat → String → Bool) (mt : Nat) :
    ∀ (n i : Nat) (failed : List String),
      dispatchCount (retryAux failsAt mt n i failed).1 ≤ n := by
  intro n
  induction n with
  | zero =>
      intro i failed
      simp [retryAux, dispatchCount]
  | succ n ih =>
      intro i failed
      by_cases h : failed.isEmpty
      · simp [retryAux, h, dispatchCount]
      · simp only [retryAux]
        rw [if_neg h]
        simp only [dispatchCount, List.countP_cons, isDispatch,
          Bool.false_eq_true, if_true, if_false]
        have := ih (i + 1)
          (download_files_in_parallel (failsAt i) failed mt).failed
        simp only [dispatchCount] at this
        omega

lemma retryAux_sleep_after_dispatch (failsAt : Nat → String → Bool)
    (mt : Nat) :
    ∀ (n i : Nat) (failed : List String) (k r : Nat) (t : List String),
      (retryAux failsAt mt n i failed).1.get? k = some (Ev.dispatch r t) →
      (retryAux failsAt mt n i failed).1.get? (k + 1) = some (Ev.sleep 2) := by
  intro n
  induction n with
  | zero =>
      intro i failed k r t h
      simp [retryAux] at h
  | succ n ih =>
      intro i failed k r t h
      by_cases he : failed.isEmpty
      · simp [retryAux, he] at h
      · simp only [retryAux, he, if_false] at h ⊢
        match k with
        | 0 => rfl
        | 1 => simp at h
        | k + 2 => exact ih (i + 1) _ k r t h

lemma retryAux_all_fail (failsAt : Nat → String → Bool) (mt : Nat)
    (hall : ∀ r u, failsAt r u = true) :
    ∀ (n i : Nat) (failed : List String),
      (retryAux failsAt mt n i failed).2 = failed := by
  intro n
  induction n with
  | zero =>
      intro i failed
      rfl
  | succ n ih =>
      intro i failed
      by_cases he : failed.isEmpty
      · simp [retryAux, he]
      · simp only [retryAux, he, if_false]
        have hfix : (download_files_in_parallel (failsAt i) failed mt).failed
            = failed := by
          simp only [download_files_in_parallel]
          exact List.filter_eq_self.mpr (fun u _ => hall i u)
        rw [hfix]
        exact ih (i + 1) failed

lemma retryAux_head_of_ne (failsAt : Nat → String → Bool) (mt n i : Nat)
    (failed : List String) (hne : ¬failed.isEmpty) :
    (retryAux failsAt mt (n + 1) i failed).1.get? 0 =
      some (Ev.dispatch i failed) := by
  simp [retryAux, hne]

lemma download_file_sentRange (url : String) (file : Option (List Nat))
    (env : Env) :
    (download_file url file env).sentRange
      = rangeHeader (resumeBytePos file) := by
  obtain ⟨net, fsb⟩ := env
  cases net with
  | reqError => rfl
  | ok clen chunks mid =>
      cases fsb with
      | ok => rfl
      | openError => rfl
      | writeError k =>
          simp only [download_file]
          split <;> rfl

lemma download_file_totalSize (url : String) (file : Option (List Nat))
    (clen : Nat) (chunks : List (List Nat)) (mid : Bool)
    (fsb : FsBehavior) :
    (download_file url file ⟨NetResult.ok clen chunks mid, fsb⟩).totalSize
      = some (clen + resumeBytePos file) := by
  cases fsb with
  | ok => rfl
  | openError => rfl
  | writeError k =>
      simp only [download_file]
      split <;> rfl

/-!
## The claims
-/

/-- C1 counterexample: not every error inside `download_file` is caught
and turned into a boolean `False`.  With a reachable server (content
length 5, one pending chunk) but a filesystem fault at
`open(save_path, 'ab')` (e.g. permission denied), the `OSError` is not a
`requests.exceptions.RequestException`, so the `except` clause at line
61 does not match and the exception escapes the Transfer Unit instead of
becoming a boolean result. -/
theorem c1_counterexample :
    (download_file "u" (some [1])
        ⟨NetResult.ok 5 [[2]] false, FsBehavior.openError⟩).result
      = PyResult.exn PyExn.osError
    ∧ ∀ b : Bool,
        (download_file "u" (some [1])
            ⟨NetResult.ok 5 [[2]] false, FsBehavior.openError⟩).result
          ≠ PyResult.ok b := by
  refine ⟨rfl, ?_⟩
  intro b
  cases b <;> simp [download_file]

/-- C1 (amended): only transport-level errors
(`requests.exceptions.RequestException`) are caught at the
`download_file` boundary and converted to the boolean failure result
`False`; a `RequestException` never escapes as an exception, and in the
absence of filesystem faults the call always returns a boolean.
Filesystem errors (`OSError`, e.g. permission denied or disk full)
escape `download_file` as exceptions. -/
theorem c1_error_boundary_amended (url : String) (file : Option (List Nat))
    (env : Env) :
    (download_file url file env).result
        ≠ PyResult.exn PyExn.requestException
    ∧ (env.net = NetResult.reqError →
        (download_file url file env).result = PyResult.ok false)
    ∧ (env.fsb = FsBehavior.ok →
        ∃ b, (download_file url file env).result = PyResult.ok b) := by
  obtain ⟨net, fsb⟩ := env
  cases net with
  | reqError =>
      exact ⟨by simp [download_file], fun _ => rfl, fun _ => ⟨false, rfl⟩⟩
  | ok clen chunks mid =>
      refine ⟨?_, ?_, ?_⟩
      · cases fsb with
        | ok => simp [download_file]
        | openError => simp [download_file]
        | writeError k =>
            simp only [download_file]
            split <;> simp
      · intro h
        exact absurd h (by simp)
      · intro h
        cases fsb with
        | ok => exact ⟨!mid, rfl⟩
        | openError => exact absurd h (by simp)
        | writeError k => exact absurd h (by simp)

/-- C1 witness: at a concrete transport failure with a healthy
filesystem, `download_file` returns the boolean `False` and indeed
returns a boolean. -/
theorem c1_witness :
    (download_file "u" none ⟨NetResult.reqError, FsBehavior.ok⟩).result
      = PyResult.ok false
    ∧ ∃ b, (download_file "u" none
        ⟨NetResult.reqError, FsBehavior.ok⟩).result = PyResult.ok b :=
  ⟨(c1_error_boundary_amended "u" none
      ⟨NetResult.reqError, FsBehavior.ok⟩).2.1 rfl,
   (c1_error_boundary_amended "u" none
      ⟨NetResult.reqError, FsBehavior.ok⟩).2.2 rfl⟩

/-- C2 counterexample: the claim says that whenever a file with the
derived name exists, its size `K` becomes the offset and the request
carries `Range: bytes=K-`.  For an existing *zero-byte* file the code
(line 33: `if resume_byte_pos > 0`) sends no Range header at all, not
`Range: bytes=0-`. -/
theorem c2_counterexample :
    (download_file "u" (some ([] : List Nat))
        ⟨NetResult.ok 3 [[1]] false, FsBehavior.ok⟩).sentRange = none
    ∧ some ([] : List Nat) ≠ (none : Option (List Nat)) := by
  exact ⟨rfl, by simp⟩

/-- C2 (amended): the resume offset is the existing file's size (`0`
when no file exists); the request carries `Range: bytes=K-` exactly when
the offset `K` is strictly positive (so an existing zero-byte file gets
no Range header); and whenever a response is received, the expected
total size is the declared content length plus the resume offset. -/
theorem c2_resume_amended (url : String) (file : Option (List Nat))
    (env : Env) :
    (file = none →
        (download_file url file env).sentRange = none
        ∧ resumeBytePos file = 0)
    ∧ (∀ c, file = some c → resumeBytePos file = c.length)
    ∧ (∀ c, file = some c → 0 < c.length →
        (download_file url file env).sentRange
          = some ("bytes=" ++ toString c.length ++ "-"))
    ∧ (∀ c, file = some c → c.length = 0 →
        (download_file url file env).sentRange = none)
    ∧ (∀ clen chunks mid, env.net = NetResult.ok clen chunks mid →
        (download_file url file env).totalSize
          = some (clen + resumeBytePos file)) := by
  refine ⟨?_, ?_, ?_, ?_, ?_⟩
  · rintro rfl
    exact ⟨by rw [download_file_sentRange]; rfl, rfl⟩
  · rintro c rfl
    rfl
  · rintro c rfl hpos
    rw [download_file_sentRange]
    simp [rangeHeader, resumeBytePos, hpos]
  · rintro c rfl hzero
    rw [download_file_sentRange]
    simp [rangeHeader, resumeBytePos, hzero]
  · rintro clen chunks mid hnet
    obtain ⟨net, fsb⟩ := env
    cases hnet
    exact download_file_totalSize url file clen chunks mid fsb

/-- C2 witness: a concrete resumed transfer — an existing two-byte file,
content length 7 — sends `Range: bytes=2-` and computes a total size of
9. -/
theorem c2_witness :
    (download_file "u" (some [5, 6])
        ⟨NetResult.ok 7 [] false, FsBehavior.ok⟩).sentRange
      = some ("bytes=" ++ toString (2 : Nat) ++ "-")
    ∧ (download_file "u" (some [5, 6])
        ⟨NetResult.ok 7 [] false, FsBehavior.ok⟩).totalSize
      = some (7 + 2) :=
  ⟨(c2_resume_amended "u" (some [5, 6])
      ⟨NetResult.ok 7 [] false, FsBehavior.ok⟩).2.2.1 [5, 6] rfl
      (by decide),
   (c2_resume_amended "u" (some [5, 6])
      ⟨NetResult.ok 7 [] false, FsBehavior.ok⟩).2.2.2.2 7 [] false rfl⟩

/-- C10: `download_file` sends a Range header if and only if the resume
offset is strictly positive; in particular an existing zero-byte file at
the destination is treated exactly like a fresh download — no Range
header — even though a file with the derived name exists. -/
theorem c10_range_iff_positive_offset (url : String)
    (file : Option (List Nat)) (env : Env) :
    ((download_file url file env).sentRange ≠ none
      ↔ 0 < resumeBytePos file)
    ∧ (download_file url (some []) env).sentRange = none := by
  constructor
  · rw [download_file_sentRange]
    unfold rangeHeader
    split
    · simpa using by assumption
    · simpa using by omega
  · rw [download_file_sentRange]
    rfl

/-- C7: repeating the Transfer Unit on a file that is already fully
downloaded — so the ranged request starts at the end of the resource,
the server declares a remaining content length of 0, and only empty
keep-alive chunks (zero additional bytes) arrive — reports success
(`True`), leaves the file unchanged, sends the Range header at the
current size, and computes a total size equal to the local size. -/
theorem c7_already_complete_success (url : String) (c : List Nat)
    (chunks : List (List Nat)) (hpos : 0 < c.length)
    (hchunks : ∀ ch ∈ chunks, ch = ([] : List Nat)) :
    (download_file url (some c)
        ⟨NetResult.ok 0 chunks false, FsBehavior.ok⟩).result
      = PyResult.ok true
    ∧ (download_file url (some c)
        ⟨NetResult.ok 0 chunks false, FsBehavior.ok⟩).file = some c
    ∧ (download_file url (some c)
        ⟨NetResult.ok 0 chunks false, FsBehavior.ok⟩).sentRange
      = some ("bytes=" ++ toString c.length ++ "-")
    ∧ (download_file url (some c)
        ⟨NetResult.ok 0 chunks false, FsBehavior.ok⟩).totalSize
      = some c.length := by
  have hempty : nonEmptyChunks chunks = [] := by
    rw [nonEmptyChunks, List.filter_eq_nil_iff]
    intro ch hch
    simp [hchunks ch hch]
  refine ⟨rfl, ?_, ?_, ?_⟩
  · simp [download_file, hempty]
  · rw [download_file_sentRange]
    simp [rangeHeader, resumeBytePos, hpos]
  · rw [download_file_totalSize]
    simp [resumeBytePos]

/-- C7 witness: a one-byte file with a zero-length ranged response
(two keep-alive chunks) succeeds and leaves the byte in place. -/
theorem c7_witness :
    (download_file "u" (some [7])
        ⟨NetResult.ok 0 [[], []] false, FsBehavior.ok⟩).result
      = PyResult.ok true
    ∧ (download_file "u" (some [7])
        ⟨NetResult.ok 0 [[], []] false, FsBehavior.ok⟩).file = some [7]
    ∧ (download_file "u" (some [7])
        ⟨NetResult.ok 0 [[], []] false, FsBehavior.ok⟩).sentRange
      = some ("bytes=" ++ toString (1 : Nat) ++ "-")
    ∧ (download_file "u" (some [7])
        ⟨NetResult.ok 0 [[], []] false, FsBehavior.ok⟩).totalSize
      = some 1 :=
  c7_already_complete_success "u" [7] [[], []] (by decide) (by decide)

/-- C8: the Transfer Unit never deletes or truncates the local file —
after any call the previous content is an initial segment of the content
on disk (the file is opened in append mode) — and on a transport-level
error in mid-stream the call returns `False` while every chunk written
before the error remains on disk. -/
theorem c8_partial_file_kept (url : String) (file : Option (List Nat))
    (env : Env) :
    (∃ t, (download_file url file env).file.getD []
        = file.getD [] ++ t)
    ∧ (∀ clen chunks, env.net = NetResult.ok clen chunks true →
        env.fsb = FsBehavior.ok →
        (download_file url file env).result = PyResult.ok false
        ∧ (download_file url file env).file
          = some (file.getD [] ++ (nonEmptyChunks chunks).flatten)) := by
  obtain ⟨net, fsb⟩ := env
  constructor
  · cases net with
    | reqError => exact ⟨[], by simp [download_file]⟩
    | ok clen chunks mid =>
        cases fsb with
        | ok => exact ⟨(nonEmptyChunks chunks).flatten, by simp [download_file]⟩
        | openError => exact ⟨[], by simp [download_file]⟩
        | writeError k =>
            by_cases hk : k < (nonEmptyChunks chunks).length
            · exact ⟨((nonEmptyChunks chunks).take k).flatten,
                by simp [download_file, hk]⟩
            · exact ⟨(nonEmptyChunks chunks).flatten,
                by simp [download_file, hk]⟩
  · rintro clen chunks hnet hfsb
    cases hnet
    cases hfsb
    exact ⟨rfl, rfl⟩

/-- C8 witness: a transfer resuming from `[1]` that receives chunks
`[2]`, `[3]` and then hits a mid-stream transport error returns `False`
and leaves `[1, 2, 3]` on disk, an extension of the prior content. -/
theorem c8_witness :
    (∃ t, (download_file "u" (some [1])
        ⟨NetResult.ok 9 [[2], [3]] true, FsBehavior.ok⟩).file.getD []
      = (some [1] : Option (List Nat)).getD [] ++ t)
    ∧ (download_file "u" (some [1])
        ⟨NetResult.ok 9 [[2], [3]] true, FsBehavior.ok⟩).result
      = PyResult.ok false
    ∧ (download_file "u" (some [1])
        ⟨NetResult.ok 9 [[2], [3]] true, FsBehavior.ok⟩).file
      = some ((some [1] : Option (List Nat)).getD []
          ++ (nonEmptyChunks [[2], [3]]).flatten) :=
  ⟨(c8_partial_file_kept "u" (some [1])
      ⟨NetResult.ok 9 [[2], [3]] true, FsBehavior.ok⟩).1,
   ((c8_partial_file_kept "u" (some [1])
      ⟨NetResult.ok 9 [[2], [3]] true, FsBehavior.ok⟩).2 9 [[2], [3]]
      rfl rfl).1,
   ((c8_partial_file_kept "u" (some [1])
      ⟨NetResult.ok 9 [[2], [3]] true, FsBehavior.ok⟩).2 9 [[2], [3]]
      rfl rfl).2⟩

/-- C9: for any thread count `C` with `1 ≤ C ≤ len(tasks)` and any
scheduler interleaving of a dispatch round that drains the queue, each
task is claimed by exactly one worker, so `download_file` is invoked
exactly once per task occurrence (no task processed twice, none
skipped), and the collected failure list is, up to completion order,
exactly the failing tasks. -/
theorem c9_each_task_invoked_once (C : Nat) (fails : String → Bool)
    (tasks dn fl : List String) (hC1 : 1 ≤ C) (hC2 : C ≤ tasks.length)
    (hexec : dispatchExec C fails ⟨tasks, [], [], []⟩ ⟨[], [], dn, fl⟩) :
    dn.Perm tasks
    ∧ (∀ u, dn.count u = tasks.count u)
    ∧ fl.Perm (tasks.filter fails) := by
  obtain ⟨hdone, hfl⟩ := dispatchExec_final_perm hexec
  exact ⟨hdone, fun u => hdone.count_eq u, hfl⟩

/-- A concrete one-task dispatch round with one thread and a succeeding
transfer: claim the head, then complete it. -/
lemma dispatchExecOneOk :
    dispatchExec 1 (fun _ => false) ⟨["a"], [], [], []⟩
      ⟨[], [], ["a"], []⟩ := by
  have s1 : workerStep 1 (fun _ => false) ⟨["a"], [], [], []⟩
      ⟨[], ["a"], [], []⟩ :=
    workerStep.claim "a" [] [] [] [] (by decide)
  have s2 : workerStep 1 (fun _ => false) ⟨[], ["a"], [], []⟩
      ⟨[], [], ["a"], []⟩ := by
    have h := @workerStep.complete 1 (fun _ => false) "a" [] [] [] [] []
    simpa using h
  exact Relation.ReflTransGen.head s1 (Relation.ReflTransGen.single s2)

/-- C9 witness: the one-task, one-thread round invokes the transfer
exactly once and collects no failure. -/
theorem c9_witness :
    (["a"] : List String).Perm ["a"]
    ∧ (∀ u : String,
        (["a"] : List String).count u = (["a"] : List String).count u)
    ∧ ([] : List String).Perm (["a"].filter (fun _ => false)) :=
  c9_each_task_invoked_once 1 (fun _ => false) ["a"] ["a"] []
    (by decide) (by decide) dispatchExecOneOk

/-- A dispatch round over the duplicated task list `["a", "a"]` with one
thread, both transfers failing: the failed list collects `"a"` twice. -/
lemma dispatchExecDup :
    dispatchExec 1 (fun _ => true) ⟨["a", "a"], [], [], []⟩
      ⟨[], [], ["a", "a"], ["a", "a"]⟩ := by
  have s1 : workerStep 1 (fun _ => true) ⟨["a", "a"], [], [], []⟩
      ⟨["a"], ["a"], [], []⟩ :=
    workerStep.claim "a" ["a"] [] [] [] (by decide)
  have s2 : workerStep 1 (fun _ => true) ⟨["a"], ["a"], [], []⟩
      ⟨["a"], [], ["a"], ["a"]⟩ := by
    have h := @workerStep.complete 1 (fun _ => true) "a" ["a"] [] [] [] []
    simpa using h
  have s3 : workerStep 1 (fun _ => true) ⟨["a"], [], ["a"], ["a"]⟩
      ⟨[], ["a"], ["a"], ["a"]⟩ :=
    workerStep.claim "a" [] [] ["a"] ["a"] (by decide)
  have s4 : workerStep 1 (fun _ => true) ⟨[], ["a"], ["a"], ["a"]⟩
      ⟨[], [], ["a", "a"], ["a", "a"]⟩ := by
    have h := @workerStep.complete 1 (fun _ => true) "a" [] [] [] ["a"] ["a"]
    simpa using h
  exact Relation.ReflTransGen.head s1 (Relation.ReflTransGen.head s2
    (Relation.ReflTransGen.head s3 (Relation.ReflTransGen.single s4)))

/-- C4 counterexample: over the task list `["a", "a"]` (a URL occurring
twice) with every transfer failing, a complete dispatch round returns a
failed list in which the failed URL `"a"` appears twice — not exactly
once as the claim states for arbitrary task lists. -/
theorem c4_counterexample :
    dispatchExec 1 (fun _ => true) ⟨["a", "a"], [], [], []⟩
      ⟨[], [], ["a", "a"], ["a", "a"]⟩
    ∧ (["a", "a"] : List String).count "a" = 2 :=
  ⟨dispatchExecDup, by decide⟩

/-- C4 (amended): for every dispatch round over any task list, the
returned failed list is no longer than the task list and every URL in it
was present in the tasks; when the task list has no duplicate URLs — as
in every round of this program, where tasks are the distinct hardcoded
URLs or a filtered sublist of them — every failed URL appears exactly
once.  (In general each failing task *occurrence* contributes one
entry.) -/
theorem c4_failed_list_amended (C : Nat) (fails : String → Bool)
    (tasks dn fl : List String)
    (hexec : dispatchExec C fails ⟨tasks, [], [], []⟩ ⟨[], [], dn, fl⟩) :
    fl.length ≤ tasks.length
    ∧ (∀ u ∈ fl, u ∈ tasks)
    ∧ (tasks.Nodup → ∀ u ∈ fl, fl.count u = 1) := by
  obtain ⟨hdone, hfl⟩ := dispatchExec_final_perm hexec
  refine ⟨?_, ?_, ?_⟩
  · rw [hfl.length_eq]
    exact List.length_filter_le _ tasks
  · intro u hu
    exact (List.mem_filter.mp (hfl.mem_iff.mp hu)).1
  · intro hnd u hu
    have hflnd : fl.Nodup := hfl.nodup_iff.mpr (hnd.filter fails)
    exact List.count_eq_one_of_mem hflnd hu

/-- A one-task dispatch round with a failing transfer, for the C4
witness. -/
lemma dispatchExecOneFail :
    dispatchExec 1 (fun _ => true) ⟨["a"], [], [], []⟩
      ⟨[], [], ["a"], ["a"]⟩ := by
  have s1 : workerStep 1 (fun _ => true) ⟨["a"], [], [], []⟩
      ⟨[], ["a"], [], []⟩ :=
    workerStep.claim "a" [] [] [] [] (by decide)
  have s2 : workerStep 1 (fun _ => true) ⟨[], ["a"], [], []⟩
      ⟨[], [], ["a"], ["a"]⟩ := by
    have h := @workerStep.complete 1 (fun _ => true) "a" [] [] [] [] []
    simpa using h
  exact Relation.ReflTransGen.head s1 (Relation.ReflTransGen.single s2)

/-- C4 witness: in the concrete one-task failing round, the failed list
has length at most the task list, draws from the tasks, and (the task
list being duplicate-free) lists the failed URL exactly once. -/
theorem c4_witness :
    (["a"] : List String).length ≤ (["a"] : List String).length
    ∧ (∀ u ∈ (["a"] : List String), u ∈ (["a"] : List String))
    ∧ (∀ u ∈ (["a"] : List String), (["a"] : List String).count u = 1) :=
  ⟨(c4_failed_list_amended 1 (fun _ => true) ["a"] ["a"] ["a"]
      dispatchExecOneFail).1,
   (c4_failed_list_amended 1 (fun _ => true) ["a"] ["a"] ["a"]
      dispatchExecOneFail).2.1,
   (c4_failed_list_amended 1 (fun _ => true) ["a"] ["a"] ["a"]
      dispatchExecOneFail).2.2 (by decide)⟩

/-- C6: every dispatch call starts
`thread_count = min(max_threads, len(urls))` workers (line 95); in
particular 10 requested workers over 3 tasks start exactly 3 workers. -/
theorem c6_thread_count_clamped (fails : String → Bool)
    (urls : List String) (max_threads : Nat) :
    (download_files_in_parallel fails urls max_threads).threadCount
      = min max_threads urls.length
    ∧ (max_threads = 10 → urls.length = 3 →
        (download_files_in_parallel fails urls max_threads).threadCount
          = 3) := by
  refine ⟨rfl, ?_⟩
  rintro rfl h3
  simp [download_files_in_parallel, h3]

/-- C6 witness: 10 requested workers over the 3 concrete tasks start
exactly 3 workers. -/
theorem c6_witness :
    (download_files_in_parallel (fun _ => false) ["a", "b", "c"]
        10).threadCount = min 10 (["a", "b", "c"] : List String).length
    ∧ (download_files_in_parallel (fun _ => false) ["a", "b", "c"]
        10).threadCount = 3 :=
  ⟨(c6_thread_count_clamped (fun _ => false) ["a", "b", "c"] 10).1,
   (c6_thread_count_clamped (fun _ => false) ["a", "b", "c"] 10).2
     rfl rfl⟩

/-- C3: the Retry Orchestrator (the retry loop in `main`, with
`retry_count = 3`) performs at most `3 + 1 = 4` dispatch rounds for any
input URL list and any pattern of failures; a round with an empty
failure list ends the loop with no further dispatches; and if every URL
fails in every round, the final failure list equals the original URL
list (the original failing set). -/
theorem c3_orchestrator_terminates (failsAt : Nat → String → Bool)
    (urls : List String) (mt : Nat) :
    dispatchCount (mainRun failsAt urls mt).1 ≤ 4
    ∧ ((download_files_in_parallel (failsAt 0) urls mt).failed = [] →
        (mainRun failsAt urls mt).1 = [Ev.dispatch 0 urls])
    ∧ (∀ n i, retryAux failsAt mt n i [] = ([], []))
    ∧ ((∀ r u, failsAt r u = true) →
        (mainRun failsAt urls mt).2 = urls) := by
  refine ⟨?_, ?_, ?_, ?_⟩
  · have h := retryAux_dispatchCount failsAt mt 3 1
      (download_files_in_parallel (failsAt 0) urls mt).failed
    simp only [mainRun, dispatchCount, List.countP_cons, isDispatch,
      if_true] at h ⊢
    omega
  · intro h0
    simp only [mainRun, h0, retryAux_nil]
  · intro n i
    exact retryAux_nil failsAt mt n i
  · intro hall
    have h0 : (download_files_in_parallel (failsAt 0) urls mt).failed
        = urls := by
      simp only [download_files_in_parallel]
      exact List.filter_eq_self.mpr (fun u _ => hall 0 u)
    simp only [mainRun, h0]
    exact retryAux_all_fail failsAt mt hall 3 1 urls

/-- C3 witness: on the empty URL list with everything failing, the run
does one dispatch round (at most four), stops immediately on the empty
failure list, and returns the original (empty) failing set. -/
theorem c3_witness :
    dispatchCount (mainRun (fun _ _ => true) [] 3).1 ≤ 4
    ∧ (mainRun (fun _ _ => true) [] 3).1 = [Ev.dispatch 0 []]
    ∧ retryAux (fun _ _ => true) 3 2 1 [] = ([], [])
    ∧ (mainRun (fun _ _ => true) [] 3).2 = [] :=
  ⟨(c3_orchestrator_terminates (fun _ _ => true) [] 3).1,
   (c3_orchestrator_terminates (fun _ _ => true) [] 3).2.1 rfl,
   (c3_orchestrator_terminates (fun _ _ => true) [] 3).2.2.1 2 1,
   (c3_orchestrator_terminates (fun _ _ => true) [] 3).2.2.2
     (fun _ _ => rfl)⟩

/-- C5 counterexample: with one URL failing in every round, the event
trace of `main`'s download phase is the initial dispatch immediately
followed by the first retry dispatch — no cooldown sleep between round 0
and round 1 — and each retry dispatch is followed by `time.sleep(2)`
(including a trailing sleep after the last retry).  The claim that a
cooldown sleep occurs before every next round, i.e. between every pair
of consecutive rounds, fails at the transition from round 0 to round
1. -/
theorem c5_counterexample :
    (mainRun (fun _ _ => true) ["a"] 3).1
      = [Ev.dispatch 0 ["a"], Ev.dispatch 1 ["a"], Ev.sleep 2,
         Ev.dispatch 2 ["a"], Ev.sleep 2, Ev.dispatch 3 ["a"], Ev.sleep 2]
    ∧ (mainRun (fun _ _ => true) ["a"] 3).1.get? 0
      = some (Ev.dispatch 0 ["a"])
    ∧ (mainRun (fun _ _ => true) ["a"] 3).1.get? 1
      = some (Ev.dispatch 1 ["a"]) := by
  refine ⟨?_, ?_, ?_⟩ <;> decide

/-- C5 (amended): the cooldown `time.sleep(2)` is executed *after* each
retry dispatch round, so a sleep does separate any two consecutive
*retry* rounds; but no sleep separates the initial round 0 from the
first retry round — when round 0 leaves failures, the first retry
dispatch is the event immediately after it — and a trailing sleep
follows the final retry round. -/
theorem c5_cooldown_amended (failsAt : Nat → String → Bool)
    (urls : List String) (mt : Nat) :
    (mainRun failsAt urls mt).1.get? 0 = some (Ev.dispatch 0 urls)
    ∧ (∀ k r t, (mainRun failsAt urls mt).1.tail.get? k
          = some (Ev.dispatch r t) →
        (mainRun failsAt urls mt).1.tail.get? (k + 1)
          = some (Ev.sleep 2))
    ∧ (¬(download_files_in_parallel (failsAt 0) urls mt).failed.isEmpty →
        (mainRun failsAt urls mt).1.tail.get? 0
          = some (Ev.dispatch 1
              (download_files_in_parallel (failsAt 0) urls mt).failed)) := by
  refine ⟨rfl, ?_, ?_⟩
  · intro k r t h
    exact retryAux_sleep_after_dispatch failsAt mt 3 1
      (download_files_in_parallel (failsAt 0) urls mt).failed k r t h
  · intro hne
    exact retryAux_head_of_ne failsAt mt 2 1
      (download_files_in_parallel (failsAt 0) urls mt).failed hne

/-- C5 witness: with one always-failing URL, the first retry dispatch is
the event right after round 0, and the event after it is the cooldown
sleep. -/
theorem c5_witness :
    (mainRun (fun _ _ => true) ["a"] 3).1.get? 0
      = some (Ev.dispatch 0 ["a"])
    ∧ (mainRun (fun _ _ => true) ["a"] 3).1.tail.get? 0
      = some (Ev.dispatch 1 ["a"])
    ∧ (mainRun (fun _ _ => true) ["a"] 3).1.tail.get? 1
      = some (Ev.sleep 2) :=
  ⟨(c5_cooldown_amended (fun _ _ => true) ["a"] 3).1,
   (c5_cooldown_amended (fun _ _ => true) ["a"] 3).2.2 (by decide),
   (c5_cooldown_amended (fun _ _ => true) ["a"] 3).2.1 0 1 ["a"]
     ((c5_cooldown_amended (fun _ _ => true) ["a"] 3).2.2 (by decide))⟩

end Nuscenes
